import Mathlib

/-!
# Verification of the batch orchestration core of the AI product-recommendation server

Shallow embedding of `src/server.js` (the in-memory variant, the one the
specification follows): the provider adapter `callAIModel` with its demo mode
and retry recursion, the model configuration table `AI_MODELS`, the
`/api/upload` batch orchestration loop with its progress events and result
rows, and the `/api/status` availability listing.

Conventions of the embedding:
* environment credentials are the three boolean "key present" flags;
* the outcome of successive live HTTP attempts is an oracle
  `net : Nat → Except String String` (`net k` = outcome of the k-th attempt);
* `Math.random()` draws are passed in as natural-number parameters;
* wall-clock timestamps (`new Date().toISOString()`) are irrelevant to every
  property considered and are omitted from `ResultRow`;
* JavaScript numbers that hold exact small integers are modelled as `Int`
  (or `Nat` where the source value is a count).
-/

namespace AIRec

/-- The three providers of `AI_MODELS` (`src/server.js` lines 85-94). -/
inductive Provider where
  | openai
  | anthropic
  | deepseek
deriving DecidableEq, Repr

/-- One entry of `AI_MODELS`: provider plus remote model name. -/
structure ModelConfig where
  provider : Provider
  model : String
deriving DecidableEq, Repr

/-- `AI_MODELS` (`src/server.js` lines 85-94), in source order. -/
def AI_MODELS : List (String × ModelConfig) :=
  [ ("gpt-4.1", ⟨Provider.openai, "gpt-4-turbo"⟩)
  , ("gpt-4o", ⟨Provider.openai, "gpt-4o"⟩)
  , ("gpt-o3", ⟨Provider.openai, "o3-mini"⟩)
  , ("claude-3.7", ⟨Provider.anthropic, "claude-3-5-haiku-20241022"⟩)
  , ("claude-sonnet-4", ⟨Provider.anthropic, "claude-3-5-sonnet-20241022"⟩)
  , ("claude-opus-4", ⟨Provider.anthropic, "claude-3-opus-20240229"⟩)
  , ("deepseek-chat", ⟨Provider.deepseek, "deepseek-chat"⟩)
  , ("deepseek-coder", ⟨Provider.deepseek, "deepseek-coder"⟩) ]

/-- `AI_MODELS[modelKey]`: lookup of a model key in the configuration table. -/
def lookupModel (modelKey : String) : Option ModelConfig :=
  (AI_MODELS.find? (fun p => p.1 == modelKey)).map (fun p => p.2)

/-- Process environment: truthiness of the three API-key variables
(`process.env.OPENAI_API_KEY` etc.). -/
structure Env where
  openaiKey : Bool
  anthropicKey : Bool
  deepseekKey : Bool
deriving DecidableEq, Repr

/-- The per-provider "credential present" flag. -/
def Env.hasKey (env : Env) : Provider → Bool
  | Provider.openai => env.openaiKey
  | Provider.anthropic => env.anthropicKey
  | Provider.deepseek => env.deepseekKey

/-- `hasAnyApiKey` of the `/api/status` route (`src/server.js` line 347). -/
def Env.hasAnyApiKey (env : Env) : Bool :=
  env.openaiKey || env.anthropicKey || env.deepseekKey

/-- The regex capture of `generateDemoResponse` (`src/server.js` lines 42-43):
the text between the first occurrence of the literal
`Based on this product: "` and the following `"`, or `Unknown Product`
when the pattern does not match. -/
def extractProduct (prompt : String) : String :=
  match prompt.splitOn "Based on this product: \"" with
  | _ :: rest :: _ =>
    match rest.splitOn "\"" with
    | captured :: _ :: _ =>
      if captured.isEmpty then "Unknown Product" else captured
    | _ => "Unknown Product"
  | _ => "Unknown Product"

/-- The two canned completions per model key (`src/server.js` lines 45-78),
as functions of the extracted product string. -/
def demoResponses (product : String) (modelKey : String) : Option (List String) :=
  if modelKey = "gpt-4.1" then some
    [ "For " ++ product ++ ", I recommend: 1) Complementary accessories that enhance functionality, 2) Similar products from trusted brands, 3) Maintenance or care items, 4) Upgraded versions with additional features, 5) Bundle deals that offer better value."
    , "Based on " ++ product ++ ", consider: 1) Related items that customers frequently buy together, 2) Seasonal alternatives, 3) Premium versions with enhanced quality, 4) Eco-friendly alternatives, 5) Smart/connected versions if available." ]
  else if modelKey = "gpt-4o" then some
    [ "Recommendations for " ++ product ++ ": 1) Essential accessories for optimal use, 2) Comparable products with different features, 3) Professional-grade alternatives, 4) Budget-friendly options, 5) Limited edition or designer versions."
    , "For " ++ product ++ " users, I suggest: 1) Protective cases or covers, 2) Cleaning and maintenance supplies, 3) Upgrade components, 4) Compatible accessories, 5) Extended warranty options." ]
  else if modelKey = "gpt-o3" then some
    [ product ++ " recommendations: 1) Multi-functional alternatives, 2) Space-saving versions, 3) Energy-efficient models, 4) Customizable options, 5) Professional installation services."
    , "Considering " ++ product ++ ", explore: 1) Next-generation models, 2) Refurbished options for savings, 3) Rental alternatives, 4) DIY kits, 5) Educational resources and tutorials." ]
  else if modelKey = "claude-3.7" then some
    [ "For " ++ product ++ ", thoughtful recommendations include: 1) Ergonomic improvements, 2) Sustainable alternatives, 3) Multi-purpose solutions, 4) Travel-friendly versions, 5) Community-recommended brands."
    , product ++ " suggestions: 1) User-reviewed top picks, 2) Innovation-focused alternatives, 3) Value-engineered options, 4) Artisan or handcrafted versions, 5) Local marketplace finds." ]
  else if modelKey = "claude-sonnet-4" then some
    [ "Curated " ++ product ++ " recommendations: 1) Award-winning designs, 2) Customer satisfaction leaders, 3) Emerging brand innovations, 4) Vintage or retro alternatives, 5) Subscription-based services."
    , "For " ++ product ++ " enthusiasts: 1) Expert-recommended upgrades, 2) Collaborative or sharing options, 3) Modular systems, 4) Smart home integration, 5) Health and wellness focused alternatives." ]
  else if modelKey = "claude-opus-4" then some
    [ "Premium " ++ product ++ " selections: 1) Luxury market leaders, 2) Innovative startups, 3) Sustainable manufacturing, 4) Personalization options, 5) Exclusive member benefits."
    , product ++ " ecosystem: 1) Complementary technology, 2) Service partnerships, 3) Educational workshops, 4) Community forums, 5) Expert consultation services." ]
  else if modelKey = "deepseek-chat" then some
    [ product ++ " analysis suggests: 1) Data-driven top performers, 2) Trend-based predictions, 3) Algorithm-optimized choices, 4) User behavior insights, 5) Market efficiency leaders."
    , "Deep insights for " ++ product ++ ": 1) Performance metrics leaders, 2) Cost-benefit optimized, 3) Future-proof investments, 4) Integration capabilities, 5) Scalability considerations." ]
  else if modelKey = "deepseek-coder" then some
    [ "Technical " ++ product ++ " recommendations: 1) API-compatible solutions, 2) Open-source alternatives, 3) Developer-friendly tools, 4) Automation possibilities, 5) Integration frameworks."
    , product ++ " tech stack: 1) Programmable interfaces, 2) Cloud-native options, 3) Microservice architecture, 4) DevOps integration, 5) Monitoring and analytics tools." ]
  else none

/-- The tag appended to every demo response (`src/server.js` line 81). -/
def demoTag : String :=
  " [DEMO MODE - Real API keys required for actual AI responses]"

/-- `generateDemoResponse(prompt, modelKey)` (`src/server.js` lines 41-82).
`ridx` models the `Math.random()` draw used to pick one of the two canned
completions (`Math.floor(Math.random() * responses.length)` = `ridx % 2`). -/
def generateDemoResponse (ridx : Nat) (prompt modelKey : String) : String :=
  let product := extractProduct prompt
  let responses :=
    match demoResponses product modelKey with
    | some rs => rs
    | none => (demoResponses product "gpt-4o").getD []
  responses.getD (ridx % responses.length) "" ++ demoTag

deriving instance DecidableEq for Except

/-- Observable trace of the live-mode part of `callAIModel`:
how many HTTP attempts were performed, the delays (in ms) awaited between
consecutive attempts, and the value returned / error thrown at the end. -/
structure LiveResult where
  attempts : Nat
  delays : List Nat
  result : Except String String
deriving DecidableEq, Repr

/-- The try/catch retry recursion of `callAIModel`
(`src/server.js` lines 137-178): attempt `net k`; on an exception, if
`retries > 0`, await `setTimeout(..., 1000)` and recurse with `retries - 1`
(`return callAIModel(modelKey, prompt, retries - 1)`), otherwise rethrow. -/
def liveCall (net : Nat → Except String String) : Nat → Nat → LiveResult
  | k, retries =>
    match net k with
    | Except.ok t => ⟨1, [], Except.ok t⟩
    | Except.error e =>
      match retries with
      | 0 => ⟨1, [], Except.error e⟩
      | r + 1 =>
        let rest := liveCall net (k + 1) r
        ⟨rest.attempts + 1, 1000 :: rest.delays, rest.result⟩

/-- Result of one `callAIModel(modelKey, prompt, retries)` invocation. -/
inductive CallResult where
  /-- Demo branch taken: await `delayMs`, return `text`, no network use. -/
  | demo (delayMs : Nat) (text : String)
  /-- Live branch taken, with its attempt/delay/result trace. -/
  | live (t : LiveResult)
  /-- `modelKey` is not in `AI_MODELS`: `config` is `undefined` and
  `config.provider` throws a TypeError before any branch is reached. -/
  | keyError
deriving DecidableEq, Repr

/-- `callAIModel(modelKey, prompt, retries = 3)` (`src/server.js` lines
110-179). `rand` models the `Math.random() * 2000` draw of the demo-mode
delay (`1000 + Math.random() * 2000`), `ridx` the canned-response pick. The
prompt only feeds `generateDemoResponse`; the live HTTP outcomes are the
oracle `net`. -/
def callAIModel (env : Env) (net : Nat → Except String String) (rand ridx : Nat)
    (modelKey prompt : String) (retries : Nat := 3) : CallResult :=
  match lookupModel modelKey with
  | none => CallResult.keyError
  | some config =>
    let hasApiKeys := env.hasKey config.provider
    if hasApiKeys = false then
      CallResult.demo (1000 + rand) (generateDemoResponse ridx prompt modelKey)
    else
      CallResult.live (liveCall net 0 retries)

/-- A parsed CSV data row, as the ordered list of its values
(`Object.values(row)` in column order). -/
abbrev CSVRow := List String

/-- `Object.values(row).join(', ')` (`src/server.js` line 259). -/
def productInfoOf (row : CSVRow) : String :=
  String.intercalate ", " row

/-- The prompt built for one product (`src/server.js` line 260). -/
def buildPrompt (productInfo : String) : String :=
  "Based on this product: \"" ++ productInfo ++
    "\", provide 3-5 specific product recommendations with brief explanations. Focus on similar or complementary products that customers who buy this item might also be interested in. Include product names and short reasons for each recommendation."

/-- One `io.emit('progress', ...)` payload. Fields that a given emission
omits from its object literal are `none`. -/
structure ProgressEvent where
  completed : Int
  total : Int
  percentage : Int
  currentProduct : Option String
  currentModel : Option String
  iteration : Option Nat
  status : String
deriving DecidableEq, Repr

/-- `Math.round((completed / total) * 100)` for `0 ≤ completed` and
`0 < total`: JavaScript `Math.round` rounds half up, i.e.
`⌊100·c/t + 1/2⌋ = ⌊(200·c + t) / (2·t)⌋`. -/
def pctRound (c t : Nat) : Nat :=
  (200 * c + t) / (2 * t)

/-- One row pushed onto `results` (`src/server.js` lines 277-295); the
wall-clock `Timestamp` field is omitted. -/
structure ResultRow where
  originalProduct : String
  model : String
  iteration : Nat
  recommendation : String
deriving DecidableEq, Repr

/-- The mutable state threaded through the processing loops: emitted unit
events, accumulated `results`, and `completedTasks`. -/
structure BatchSt where
  events : List ProgressEvent
  results : List ResultRow
  completed : Nat
deriving DecidableEq, Repr

/-- The per-unit `io.emit('progress', ...)` payload (`src/server.js` lines
265-273), emitted before the unit's adapter call with the pre-increment
`completedTasks = c`. Whenever this emission is reached all three loop
bounds are positive, so `totalTasks` equals the positive count `totalN`;
the `percentage` expression is evaluated at that value. -/
def unitEvent (c : Nat) (totalI : Int) (totalN : Nat) (iterationCount : Int)
    (productInfo modelKey : String) (iter1 : Nat) : ProgressEvent :=
  { completed := c
  , total := totalI
  , percentage := pctRound c totalN
  , currentProduct := some productInfo
  , currentModel := some modelKey
  , iteration := some iter1
  , status := "Processing " ++ productInfo ++ " with " ++ modelKey ++
      " (iteration " ++ toString iter1 ++ "/" ++ toString iterationCount ++ ")" }

/-- The row pushed for one unit: the returned recommendation on success, the
`` `Error: ${error.message}` `` marker on failure (lines 277-295). -/
def mkResultRow (productInfo modelKey : String) (iter1 : Nat)
    (res : Except String String) : ResultRow :=
  { originalProduct := productInfo
  , model := modelKey
  , iteration := iter1
  , recommendation :=
      match res with
      | Except.ok t => t
      | Except.error e => "Error: " ++ e }

/-- The body of the innermost loop for one work unit (lines 264-297):
emit the per-unit progress event, run the adapter call, push exactly one
row (success or error marker), increment `completedTasks` by one — the
increment happens in both the try and the catch branch. -/
def unitStep (totalI : Int) (totalN : Nat) (iterationCount : Int)
    (productInfo modelKey : String) (iter1 : Nat)
    (res : Except String String) (st : BatchSt) : BatchSt :=
  { events := st.events ++
      [unitEvent st.completed totalI totalN iterationCount productInfo modelKey iter1]
  , results := st.results ++ [mkResultRow productInfo modelKey iter1 res]
  , completed := st.completed + 1 }

/-- The triple-nested processing loop of `app.post('/api/upload')`
(`src/server.js` lines 244-300): outer `for (const row of csvData)`, middle
`for (const modelKey of models)`, inner `for (let i = 0; i < iterationCount;
i++)`. `iterationCount` is an `Int` (it can be negative, see
`jsParseIntOr1`); the inner loop executes `iterationCount.toNat` times.
`outcome ri mi i` is the resolved result of `callAIModel` for the unit at
row index `ri`, model index `mi`, iteration index `i`. -/
def runBatch (rows : List CSVRow) (models : List String) (iterationCount : Int)
    (outcome : Nat → Nat → Nat → Except String String) : BatchSt :=
  let totalI : Int := (rows.length : Int) * (models.length : Int) * iterationCount
  let totalN : Nat := rows.length * models.length * iterationCount.toNat
  let itersN : Nat := iterationCount.toNat
  rows.enum.foldl
    (fun st p =>
      let productInfo := productInfoOf p.2
      models.enum.foldl
        (fun st q =>
          (List.range itersN).foldl
            (fun st i =>
              unitStep totalI totalN iterationCount productInfo q.2 (i + 1)
                (outcome p.1 q.1 i) st)
            st)
        st)
    ⟨[], [], 0⟩

/-- The initial `io.emit('progress', ...)` (lines 249-256): hard-coded
`completed: 0`, `percentage: 0`, empty current fields, no iteration field. -/
def initialEvent (totalI : Int) : ProgressEvent :=
  { completed := 0
  , total := totalI
  , percentage := 0
  , currentProduct := some ""
  , currentModel := some ""
  , iteration := none
  , status := "Starting processing..." }

/-- The completion `io.emit('progress', ...)` (lines 303-308): hard-coded
`completed: totalTasks`, `percentage: 100`, no current/iteration fields. -/
def finalEvent (totalI : Int) : ProgressEvent :=
  { completed := totalI
  , total := totalI
  , percentage := 100
  , currentProduct := none
  , currentModel := none
  , iteration := none
  , status := "Processing complete! Generating Excel file..." }

/-- `parseInt(iterations) || 1` (`src/server.js` line 238): `none` stands
for a missing or non-numeric field (`parseInt` returns `NaN`, which is
falsy), `some 0` is falsy too, and any other parsed integer — including a
negative one — is used as-is. -/
def jsParseIntOr1 : Option Int → Int
  | none => 1
  | some 0 => 1
  | some n => n

/-- The state of the `selectedModels` body field as the handler sees it
(lines 221-236): absent, `JSON.parse` failure, parsed but not an array, or
a parsed array of model keys. -/
inductive ModelsField where
  | missing
  | parseFailure
  | parsedNonArray
  | parsedArray (keys : List String)
deriving DecidableEq, Repr

/-- An `/api/upload` request after multer and body parsing: `file` is the
parsed CSV rows when a file was attached (`none` = no file), plus the
`selectedModels` and `iterations` body fields (`iterations = none` models a
missing/non-numeric value, i.e. a `NaN` parse). -/
structure UploadRequest where
  file : Option (List CSVRow)
  selectedModels : ModelsField
  iterations : Option Int
deriving DecidableEq, Repr

/-- The HTTP response of the upload handler: a structured client error
(`res.status(400).json({ error: message })`) or the success payload with
`totalRecommendations: results.length`. -/
inductive HandlerResponse where
  | clientError (statusCode : Nat) (message : String)
  | success (totalRecommendations : Nat)
deriving DecidableEq, Repr

/-- Everything observable about one upload request: the progress events
emitted (in order), the accumulated result rows, the number of
`callAIModel` invocations made, and the HTTP response. -/
structure HandlerOutcome where
  events : List ProgressEvent
  results : List ResultRow
  providerCalls : Nat
  response : HandlerResponse
deriving DecidableEq, Repr

/-- `app.post('/api/upload')` (`src/server.js` lines 215-325): the
validation chain in source order (file present; `selectedModels` present;
`JSON.parse` succeeds; value is a non-empty array), each failure returning
a 400 JSON error before any progress emission or adapter call; then
`iterationCount = parseInt(iterations) || 1`, the processing loops, and the
bracketing initial/final progress events. One `callAIModel` invocation is
made per executed work unit. -/
def handleUpload (req : UploadRequest)
    (outcome : Nat → Nat → Nat → Except String String) : HandlerOutcome :=
  match req.file with
  | none => ⟨[], [], 0, HandlerResponse.clientError 400 "No file uploaded"⟩
  | some csvData =>
    match req.selectedModels with
    | ModelsField.missing =>
      ⟨[], [], 0, HandlerResponse.clientError 400 "No models selected"⟩
    | ModelsField.parseFailure =>
      ⟨[], [], 0, HandlerResponse.clientError 400 "Invalid models format"⟩
    | ModelsField.parsedNonArray =>
      ⟨[], [], 0, HandlerResponse.clientError 400 "At least one model must be selected"⟩
    | ModelsField.parsedArray [] =>
      ⟨[], [], 0, HandlerResponse.clientError 400 "At least one model must be selected"⟩
    | ModelsField.parsedArray (m :: ms) =>
      let models := m :: ms
      let iterationCount := jsParseIntOr1 req.iterations
      let totalI : Int := (csvData.length : Int) * (models.length : Int) * iterationCount
      let st := runBatch csvData models iterationCount outcome
      ⟨initialEvent totalI :: st.events ++ [finalEvent totalI]
      , st.results
      , st.completed
      , HandlerResponse.success st.results.length⟩

/-- `availableModels` of `app.get('/api/status')` (`src/server.js` lines
340-362): with at least one key configured, the keys whose provider has a
key; with no key at all, every key ("all models available in demo mode"). -/
def statusAvailableModels (env : Env) : List String :=
  if env.hasAnyApiKey then
    (AI_MODELS.filter (fun p => env.hasKey p.2.provider)).map (fun p => p.1)
  else
    AI_MODELS.map (fun p => p.1)

/-- One work unit of a batch: its product description, model key, 1-based
iteration number, and the resolved adapter outcome for it. -/
structure UnitDesc where
  productInfo : String
  modelKey : String
  iter1 : Nat
  res : Except String String
deriving DecidableEq, Repr

/-- Modelled from the spec's ordering contract (§3 WorkUnit): the flattened
work-unit sequence in nested order — outer over products in CSV order,
middle over model keys in caller order, inner over iterations 1..N. The
orchestrator loop is proved to realize exactly this sequence. -/
def specUnitSeq (rows : List CSVRow) (models : List String) (itersN : Nat)
    (outcome : Nat → Nat → Nat → Except String String) : List UnitDesc :=
  rows.enum.flatMap fun p =>
    models.enum.flatMap fun q =>
      (List.range itersN).map fun i =>
        ⟨productInfoOf p.2, q.2, i + 1, outcome p.1 q.1 i⟩

/-- The result rows a unit sequence prescribes, one per unit in order. -/
def specOrderedRows (l : List UnitDesc) : List ResultRow :=
  l.map fun d => mkResultRow d.productInfo d.modelKey d.iter1 d.res

/-- The per-unit progress events a unit sequence prescribes, the `j`-th
carrying the pre-increment count `c + j`. -/
def specOrderedEvents (totalI : Int) (totalN : Nat) (iterationCount : Int) :
    Nat → List UnitDesc → List ProgressEvent
  | _, [] => []
  | c, d :: ds =>
    unitEvent c totalI totalN iterationCount d.productInfo d.modelKey d.iter1 ::
      specOrderedEvents totalI totalN iterationCount (c + 1) ds

/-- `unitStep` uncurried over a `UnitDesc`, in `foldl` argument order. -/
def unitStepD (totalI : Int) (totalN : Nat) (iterationCount : Int)
    (st : BatchSt) (d : UnitDesc) : BatchSt :=
  unitStep totalI totalN iterationCount d.productInfo d.modelKey d.iter1 d.res st

/-! ## Helper lemmas -/

theorem foldl_flatMap_eq {α β γ : Type} (g : α → List β) (f : γ → β → γ) :
    ∀ (xs : List α) (init : γ),
      (xs.flatMap g).foldl f init = xs.foldl (fun st x => (g x).foldl f st) init
  | [], _ => rfl
  | x :: xs, init => by
    rw [List.flatMap_cons, List.foldl_append, List.foldl_cons,
      foldl_flatMap_eq g f xs]

theorem length_flatMap_uniform {α β : Type} (g : α → List β) (k : Nat)
    (hk : ∀ a, (g a).length = k) :
    ∀ xs : List α, (xs.flatMap g).length = xs.length * k
  | [] => by simp
  | x :: xs => by
    rw [List.flatMap_cons, List.length_append, hk x,
      length_flatMap_uniform g k hk xs, List.length_cons]
    ring

theorem flatMap_getElem_uniform {α β : Type} (g : α → List β) (k : Nat)
    (hk : ∀ a, (g a).length = k) :
    ∀ (xs : List α) (j r : Nat) (a : α), xs[j]? = some a → r < k →
      (xs.flatMap g)[j * k + r]? = (g a)[r]?
  | [], j, _, _, hj, _ => by simp at hj
  | x :: xs, 0, r, a, hj, hr => by
    have hxa : x = a := by simpa using hj
    rw [List.flatMap_cons, Nat.zero_mul, Nat.zero_add, hxa,
      List.getElem?_append_left (by rw [hk a]; exact hr)]
  | x :: xs, j + 1, r, a, hj, hr => by
    simp only [List.getElem?_cons_succ] at hj
    rw [List.flatMap_cons,
      List.getElem?_append_right (by rw [hk x]; calc
        k ≤ (j + 1) * k := Nat.le_mul_of_pos_left k (Nat.succ_pos j)
        _ ≤ (j + 1) * k + r := Nat.le_add_right _ _)]
    have harith : (j + 1) * k + r - (g x).length = j * k + r := by
      rw [hk x]; cases k with
      | zero => simp
      | succ k0 => rw [Nat.succ_mul]; omega
    rw [harith]
    exact flatMap_getElem_uniform g k hk xs j r a hj hr

theorem foldl_congr_fn {α β : Type} (f g : β → α → β) :
    ∀ (l : List α) (init : β), (∀ st a, f st a = g st a) →
      l.foldl f init = l.foldl g init
  | [], _, _ => rfl
  | x :: xs, init, h => by
    rw [List.foldl_cons, List.foldl_cons, h, foldl_congr_fn f g xs _ h]

theorem foldl_unitStepD (totalI : Int) (totalN : Nat) (iterC : Int) :
    ∀ (l : List UnitDesc) (st : BatchSt),
      l.foldl (unitStepD totalI totalN iterC) st =
        ⟨st.events ++ specOrderedEvents totalI totalN iterC st.completed l,
         st.results ++ specOrderedRows l,
         st.completed + l.length⟩
  | [], st => by simp [specOrderedEvents, specOrderedRows]
  | d :: ds, st => by
    rw [List.foldl_cons, foldl_unitStepD totalI totalN iterC ds]
    simp [unitStepD, unitStep, specOrderedEvents, specOrderedRows]
    omega

theorem specUnitSeq_length (rows : List CSVRow) (models : List String)
    (itersN : Nat) (outcome : Nat → Nat → Nat → Except String String) :
    (specUnitSeq rows models itersN outcome).length =
      rows.length * (models.length * itersN) := by
  unfold specUnitSeq
  rw [length_flatMap_uniform _ (models.length * itersN)
      (fun p => by
        rw [length_flatMap_uniform _ itersN (fun q => by simp), List.enum_length]),
    List.enum_length]

theorem runBatch_eq_foldl (rows : List CSVRow) (models : List String)
    (iterC : Int) (outcome : Nat → Nat → Nat → Except String String) :
    runBatch rows models iterC outcome =
      (specUnitSeq rows models iterC.toNat outcome).foldl
        (unitStepD ((rows.length : Int) * (models.length : Int) * iterC)
          (rows.length * models.length * iterC.toNat) iterC)
        ⟨[], [], 0⟩ := by
  simp only [runBatch, specUnitSeq]
  rw [foldl_flatMap_eq]
  refine foldl_congr_fn _ _ _ _ (fun st p => ?_)
  rw [foldl_flatMap_eq]
  refine foldl_congr_fn _ _ _ _ (fun st' q => ?_)
  rw [List.foldl_map]
  rfl

theorem runBatch_closed (rows : List CSVRow) (models : List String)
    (iterC : Int) (outcome : Nat → Nat → Nat → Except String String) :
    runBatch rows models iterC outcome =
      ⟨specOrderedEvents ((rows.length : Int) * (models.length : Int) * iterC)
          (rows.length * models.length * iterC.toNat) iterC 0
          (specUnitSeq rows models iterC.toNat outcome),
        specOrderedRows (specUnitSeq rows models iterC.toNat outcome),
        (specUnitSeq rows models iterC.toNat outcome).length⟩ := by
  rw [runBatch_eq_foldl, foldl_unitStepD]
  simp

theorem liveCall_spec (net : Nat → Except String String) :
    ∀ (retries k : Nat),
      1 ≤ (liveCall net k retries).attempts ∧
      (liveCall net k retries).attempts ≤ retries + 1 ∧
      (liveCall net k retries).delays =
        List.replicate ((liveCall net k retries).attempts - 1) 1000 ∧
      (liveCall net k retries).result = net (k + ((liveCall net k retries).attempts - 1))
  | 0, k => by
    unfold liveCall
    cases hnk : net k with
    | ok t => simp [hnk]
    | error e => simp [hnk]
  | r + 1, k => by
    unfold liveCall
    cases hnk : net k with
    | ok t => simp [hnk]
    | error e =>
      obtain ⟨h1, h2, h3, h4⟩ := liveCall_spec net r (k + 1)
      simp only [hnk]
      refine ⟨Nat.le_add_left _ _, by omega, ?_, ?_⟩
      · rw [h3,
          show (liveCall net (k + 1) r).attempts + 1 - 1 =
            ((liveCall net (k + 1) r).attempts - 1) + 1 by omega,
          List.replicate_succ]
      · rw [h4, Nat.add_sub_cancel,
          show k + 1 + ((liveCall net (k + 1) r).attempts - 1) =
            k + (liveCall net (k + 1) r).attempts by omega]

theorem mem_specOrderedEvents (totalI : Int) (totalN : Nat) (iterC : Int) :
    ∀ (l : List UnitDesc) (c0 : Nat) (e : ProgressEvent),
      e ∈ specOrderedEvents totalI totalN iterC c0 l →
      ∃ (c : Nat) (d : UnitDesc),
        e = unitEvent c totalI totalN iterC d.productInfo d.modelKey d.iter1
  | [], _, e, h => by simp [specOrderedEvents] at h
  | d :: ds, c0, e, h => by
    rw [specOrderedEvents] at h
    rcases List.mem_cons.mp h with h1 | h2
    · exact ⟨c0, d, h1⟩
    · exact mem_specOrderedEvents totalI totalN iterC ds (c0 + 1) e h2

theorem specUnitSeq_getElem (rows : List CSVRow) (models : List String)
    (itersN : Nat) (outcome : Nat → Nat → Nat → Except String String)
    (ri mi ii : Nat) (row : CSVRow) (modelKey : String)
    (hr : rows[ri]? = some row) (hm : models[mi]? = some modelKey)
    (hi : ii < itersN) :
    (specUnitSeq rows models itersN outcome)[ri * (models.length * itersN) +
        mi * itersN + ii]? =
      some ⟨productInfoOf row, modelKey, ii + 1, outcome ri mi ii⟩ := by
  have hmi : mi < models.length := by
    rcases List.getElem?_eq_some.mp hm with ⟨h, _⟩
    exact h
  have hlt : mi * itersN + ii < models.length * itersN := by
    calc mi * itersN + ii < mi * itersN + itersN := by omega
      _ = (mi + 1) * itersN := by ring
      _ ≤ models.length * itersN := Nat.mul_le_mul_right _ (by omega)
  have henr : rows.enum[ri]? = some (ri, row) := by
    rw [List.getElem?_enum, hr]; rfl
  have henm : models.enum[mi]? = some (mi, modelKey) := by
    rw [List.getElem?_enum, hm]; rfl
  unfold specUnitSeq
  rw [show ri * (models.length * itersN) + mi * itersN + ii =
      ri * (models.length * itersN) + (mi * itersN + ii) by omega]
  rw [flatMap_getElem_uniform _ (models.length * itersN)
    (fun p => by
      rw [length_flatMap_uniform _ itersN (fun q => by simp), List.enum_length])
    rows.enum ri _ (ri, row) henr hlt]
  rw [flatMap_getElem_uniform _ itersN (fun q => by simp)
    models.enum mi ii (mi, modelKey) henm hi]
  rw [List.getElem?_map, List.getElem?_range hi]
  rfl

theorem runBatch_of_nonpos (rows : List CSVRow) (models : List String)
    (iterC : Int) (outcome : Nat → Nat → Nat → Except String String)
    (h : iterC ≤ 0) :
    runBatch rows models iterC outcome = ⟨[], [], 0⟩ := by
  have hlen : (specUnitSeq rows models iterC.toNat outcome).length = 0 := by
    rw [specUnitSeq_length, Int.toNat_of_nonpos h]
    simp
  have hseq := List.length_eq_zero.mp hlen
  rw [runBatch_closed, hseq]
  simp [specOrderedRows, specOrderedEvents]

/-! ## Claims -/

/-- Claim C1, counterexample: the claim says at most 3 attempts in total
(1 initial + up to 2 retries), but with the default `retries = 3` an
always-failing call performs 4 attempts — `retries > 0` allows a retry at
`retries = 3, 2, 1`, so 1 initial + 3 retries. -/
theorem claim1_counterexample :
    3 < (liveCall (fun _ => Except.error "network down") 0 3).attempts := by
  have h : (liveCall (fun _ => Except.error "network down") 0 3).attempts = 4 :=
    rfl
  omega

/-- Claim C1 (amended): for every model key with a configured provider
credential, `callAIModel` makes at most 4 attempts in total (1 initial +
up to 3 retries, the default `retries = 3`), waits a fixed 1000 ms delay
between consecutive attempts with no backoff growth, and its result is the
outcome of the last attempt performed — so when every attempt fails the
last error is surfaced to the caller. -/
theorem claim1_adapter_retry (env : Env) (net : Nat → Except String String)
    (rand ridx : Nat) (modelKey prompt : String) (config : ModelConfig)
    (hcfg : lookupModel modelKey = some config)
    (hkey : env.hasKey config.provider = true) :
    ∃ t, callAIModel env net rand ridx modelKey prompt = CallResult.live t ∧
      1 ≤ t.attempts ∧ t.attempts ≤ 4 ∧
      t.delays = List.replicate (t.attempts - 1) 1000 ∧
      t.result = net (t.attempts - 1) := by
  refine ⟨liveCall net 0 3, ?_, ?_⟩
  · unfold callAIModel
    rw [hcfg]
    simp [hkey]
  · obtain ⟨h1, h2, h3, h4⟩ := liveCall_spec net 3 0
    exact ⟨h1, h2, h3, by simpa using h4⟩

/-- Claim C1 witness: the amended statement at a concrete configured
environment, key and failing network oracle. -/
theorem claim1_adapter_retry_witness :
    lookupModel "gpt-4o" = some ⟨Provider.openai, "gpt-4o"⟩ ∧
    Env.hasKey ⟨true, true, true⟩ Provider.openai = true ∧
    ∃ t, callAIModel ⟨true, true, true⟩
          (fun _ : Nat => (Except.error "boom" : Except String String)) 0 0
          "gpt-4o" "p" = CallResult.live t ∧
      1 ≤ t.attempts ∧ t.attempts ≤ 4 ∧
      t.delays = List.replicate (t.attempts - 1) 1000 ∧
      t.result = (fun _ : Nat => (Except.error "boom" : Except String String))
        (t.attempts - 1) :=
  ⟨rfl, rfl,
    claim1_adapter_retry ⟨true, true, true⟩ _ 0 0 "gpt-4o" "p"
      ⟨Provider.openai, "gpt-4o"⟩ rfl rfl⟩

/-- Claim C2: the orchestrator appends result rows and emits per-unit
progress events in exactly nested order — outer over product rows in CSV
order, middle over model keys in caller order, inner over iterations 1..N —
and in particular a 2-product × 2-model × 2-iteration batch produces
exactly these 8 rows in this sequence. -/
theorem claim2_nested_order (rows : List CSVRow) (models : List String)
    (iterC : Int) (outcome : Nat → Nat → Nat → Except String String) :
    ((runBatch rows models iterC outcome).results =
        specOrderedRows (specUnitSeq rows models iterC.toNat outcome) ∧
      (runBatch rows models iterC outcome).events =
        specOrderedEvents ((rows.length : Int) * (models.length : Int) * iterC)
          (rows.length * models.length * iterC.toNat) iterC 0
          (specUnitSeq rows models iterC.toNat outcome)) ∧
    ∀ (p1 p2 : CSVRow) (m1 m2 : String)
      (oc : Nat → Nat → Nat → Except String String),
      (runBatch [p1, p2] [m1, m2] 2 oc).results =
        [ mkResultRow (productInfoOf p1) m1 1 (oc 0 0 0)
        , mkResultRow (productInfoOf p1) m1 2 (oc 0 0 1)
        , mkResultRow (productInfoOf p1) m2 1 (oc 0 1 0)
        , mkResultRow (productInfoOf p1) m2 2 (oc 0 1 1)
        , mkResultRow (productInfoOf p2) m1 1 (oc 1 0 0)
        , mkResultRow (productInfoOf p2) m1 2 (oc 1 0 1)
        , mkResultRow (productInfoOf p2) m2 1 (oc 1 1 0)
        , mkResultRow (productInfoOf p2) m2 2 (oc 1 1 1) ] := by
  refine ⟨⟨?_, ?_⟩, ?_⟩
  · rw [runBatch_closed]
  · rw [runBatch_closed]
  · intro p1 p2 m1 m2 oc
    rfl

/-- Claim C3: for every valid upload (iterations ≥ 1), the completed
counter of the finished batch equals
`rows.length * models.length * iterations` (the fixed `totalTasks`), and
equals the number of result rows — the counter starts at 0 and each
resolved work unit, success or failure, contributes exactly one row and
one increment. -/
theorem claim3_totalUnits (rows : List CSVRow) (models : List String)
    (iterC : Int) (outcome : Nat → Nat → Nat → Except String String)
    (h : 1 ≤ iterC) :
    (((runBatch rows models iterC outcome).completed : Int) =
        (rows.length : Int) * (models.length : Int) * iterC) ∧
    (runBatch rows models iterC outcome).completed =
      (runBatch rows models iterC outcome).results.length := by
  rw [runBatch_closed]
  constructor
  · simp only [specUnitSeq_length]
    push_cast
    rw [Int.toNat_of_nonneg (by omega)]
    ring
  · simp [specOrderedRows]

/-- Claim C3 witness: a concrete 2-row, 1-model, 2-iteration batch. -/
theorem claim3_totalUnits_witness :
    (1 : Int) ≤ 2 ∧
    ((((runBatch [["a"], ["b"]] ["m1"] 2 (fun _ _ _ => Except.ok "r")).completed :
          Int) =
        (([["a"], ["b"]] : List CSVRow).length : Int) *
          ((["m1"] : List String).length : Int) * 2) ∧
      (runBatch [["a"], ["b"]] ["m1"] 2 (fun _ _ _ => Except.ok "r")).completed =
        (runBatch [["a"], ["b"]] ["m1"] 2
          (fun _ _ _ => Except.ok "r")).results.length) :=
  ⟨by norm_num, claim3_totalUnits _ _ _ _ (by norm_num)⟩

/-- Claim C4, counterexample: the per-unit percentage is computed with
`Math.round`, not `floor`: in a batch of 8 units the event carrying
`completed = 1` has percentage `round(12.5) = 13`, while
`floor(1/8 × 100) = 12`. -/
theorem claim4_counterexample :
    (runBatch [["p"]] ["gpt-4o"] 8 (fun _ _ _ => Except.ok "r")).events.map
        (fun e => e.percentage) = [0, 13, 25, 38, 50, 63, 75, 88] ∧
    (100 * 1) / 8 = (12 : Nat) ∧ (13 : Int) ≠ ((12 : Nat) : Int) := by
  refine ⟨rfl, rfl, by decide⟩

/-- Claim C4 (amended): the percentage field of every per-unit progress
event equals `Math.round(completedUnits / totalUnits × 100)` — rounding
half up, which differs from `floor` exactly at half-integer values — at the
completed count the event carries. -/
theorem claim4_percentage_round (rows : List CSVRow) (models : List String)
    (iterC : Int) (outcome : Nat → Nat → Nat → Except String String)
    (e : ProgressEvent)
    (he : e ∈ (runBatch rows models iterC outcome).events) :
    ∃ c : Nat, e.completed = (c : Int) ∧
      e.percentage =
        (pctRound c (rows.length * models.length * iterC.toNat) : Int) := by
  rw [runBatch_closed] at he
  obtain ⟨c, d, rfl⟩ := mem_specOrderedEvents _ _ _ _ _ e he
  exact ⟨c, rfl, rfl⟩

/-- Claim C4 witness: the amended statement at a one-unit batch. -/
theorem claim4_percentage_round_witness :
    unitEvent 0 1 1 1 (productInfoOf ["a"]) "m" 1 ∈
        (runBatch [["a"]] ["m"] 1
          (fun (_ _ _ : Nat) => (Except.ok "r" : Except String String))).events ∧
    ∃ c : Nat,
      (unitEvent 0 1 1 1 (productInfoOf ["a"]) "m" 1).completed = (c : Int) ∧
      (unitEvent 0 1 1 1 (productInfoOf ["a"]) "m" 1).percentage =
        (pctRound c (([["a"]] : List CSVRow).length *
          (["m"] : List String).length * (1 : Int).toNat) : Int) :=
  ⟨by decide,
    claim4_percentage_round [["a"]] ["m"] 1
      (fun (_ _ _ : Nat) => (Except.ok "r" : Except String String))
      (unitEvent 0 1 1 1 (productInfoOf ["a"]) "m" 1) (by decide)⟩

/-- Claim C5, counterexample: on a zero-row CSV the orchestrator emits the
initial and the final progress events immediately, but the initial one
carries the hard-coded `percentage: 0`, not 100 as claimed; only the final
one carries 100. -/
theorem claim5_counterexample :
    (handleUpload ⟨some [], ModelsField.parsedArray ["gpt-4o"], some 1⟩
        (fun _ _ _ => Except.ok "r")).events.map (fun e => e.percentage) =
      [0, 100] ∧ (0 : Int) ≠ 100 :=
  ⟨rfl, by decide⟩

/-- Claim C5 (amended): when the parsed CSV has zero data rows the
orchestrator still immediately emits exactly the initial progress event
(with `percentage = 0`) and the final progress event (with
`percentage = 100`), produces an empty result set, performs no adapter
call, and the per-unit percentage division is never evaluated — the
handler terminates with a success response. -/
theorem claim5_zero_rows (m : String) (ms : List String) (iters : Option Int)
    (outcome : Nat → Nat → Nat → Except String String) :
    handleUpload ⟨some [], ModelsField.parsedArray (m :: ms), iters⟩ outcome =
      ⟨[initialEvent 0, finalEvent 0], [], 0, HandlerResponse.success 0⟩ := by
  have hrb : runBatch [] (m :: ms) (jsParseIntOr1 iters) outcome =
      ⟨[], [], 0⟩ := rfl
  unfold handleUpload
  simp [hrb]

/-- Claim C6: a work unit whose adapter call fails yields exactly one
error-marker result row at that unit's position, every unit — including
all subsequent ones — still produces exactly one row (batch length is the
full unit count regardless of outcomes), the completed counter matches the
row count (one increment per unit), and the handler response is a success
regardless of per-unit errors — a provider error is never a request-level
failure by itself. -/
theorem claim6_unit_failure_isolated (rows : List CSVRow)
    (models : List String) (iterC : Int)
    (outcome : Nat → Nat → Nat → Except String String)
    (ri mi ii : Nat) (row : CSVRow) (modelKey : String) (e : String)
    (hr : rows[ri]? = some row) (hm : models[mi]? = some modelKey)
    (hi : ii < iterC.toNat) (herr : outcome ri mi ii = Except.error e) :
    (runBatch rows models iterC outcome).results[ri *
        (models.length * iterC.toNat) + mi * iterC.toNat + ii]? =
      some (mkResultRow (productInfoOf row) modelKey (ii + 1)
        (Except.error e)) ∧
    (runBatch rows models iterC outcome).results.length =
      rows.length * (models.length * iterC.toNat) ∧
    (runBatch rows models iterC outcome).completed =
      (runBatch rows models iterC outcome).results.length ∧
    ∀ (iters : Option Int) (m0 : String) (ms : List String),
      models = m0 :: ms →
      (handleUpload ⟨some rows, ModelsField.parsedArray models, iters⟩
          outcome).response =
        HandlerResponse.success
          ((runBatch rows models (jsParseIntOr1 iters) outcome).results.length) := by
  refine ⟨?_, ?_, ?_, ?_⟩
  · rw [runBatch_closed]
    show (specOrderedRows (specUnitSeq rows models iterC.toNat outcome))[_]? = _
    unfold specOrderedRows
    rw [List.getElem?_map,
      specUnitSeq_getElem rows models iterC.toNat outcome ri mi ii row modelKey
        hr hm hi]
    simp [mkResultRow, herr]
  · rw [runBatch_closed]
    simp [specOrderedRows, specUnitSeq_length]
  · rw [runBatch_closed]
    simp [specOrderedRows]
  · intro iters m0 ms hmodels
    subst hmodels
    rfl

/-- Claim C6 witness: a one-unit batch whose single adapter call fails. -/
theorem claim6_unit_failure_isolated_witness :
    ([["a"]] : List CSVRow)[0]? = some ["a"] ∧
    (["m"] : List String)[0]? = some "m" ∧
    0 < (1 : Int).toNat ∧
    (fun (_ _ _ : Nat) => (Except.error "boom" : Except String String)) 0 0 0 =
      Except.error "boom" ∧
    ((runBatch [["a"]] ["m"] 1
        (fun (_ _ _ : Nat) => (Except.error "boom" : Except String String))).results[0 *
          ((["m"] : List String).length * (1 : Int).toNat) +
          0 * (1 : Int).toNat + 0]? =
      some (mkResultRow (productInfoOf ["a"]) "m" (0 + 1)
        (Except.error "boom")) ∧
      (runBatch [["a"]] ["m"] 1
        (fun (_ _ _ : Nat) =>
          (Except.error "boom" : Except String String))).results.length =
        ([["a"]] : List CSVRow).length *
          ((["m"] : List String).length * (1 : Int).toNat) ∧
      (runBatch [["a"]] ["m"] 1
        (fun (_ _ _ : Nat) =>
          (Except.error "boom" : Except String String))).completed =
        (runBatch [["a"]] ["m"] 1
          (fun (_ _ _ : Nat) =>
            (Except.error "boom" : Except String String))).results.length ∧
      ∀ (iters : Option Int) (m0 : String) (ms : List String),
        (["m"] : List String) = m0 :: ms →
        (handleUpload ⟨some [["a"]], ModelsField.parsedArray ["m"], iters⟩
            (fun (_ _ _ : Nat) =>
              (Except.error "boom" : Except String String))).response =
          HandlerResponse.success
            ((runBatch [["a"]] ["m"] (jsParseIntOr1 iters)
              (fun (_ _ _ : Nat) =>
                (Except.error "boom" : Except String String))).results.length)) :=
  ⟨rfl, rfl, by decide, rfl,
    claim6_unit_failure_isolated [["a"]] ["m"] 1
      (fun (_ _ _ : Nat) => (Except.error "boom" : Except String String))
      0 0 0 ["a"] "m" "boom" rfl rfl (by decide) rfl⟩

/-- Claim C7: demo mode activates exactly when the resolved provider's
credential flag is false; in that mode the adapter ignores the network
oracle entirely, awaits `1000 + Math.random()·2000` milliseconds — a value
in [1000, 3000) — and returns the canned response, which always ends in
the demo tag and is therefore marked as simulated output; when the flag is
true the live branch is taken instead. -/
theorem claim7_demo_mode (env : Env) (net : Nat → Except String String)
    (rand ridx : Nat) (modelKey prompt : String) (config : ModelConfig)
    (hcfg : lookupModel modelKey = some config) :
    (env.hasKey config.provider = false →
      callAIModel env net rand ridx modelKey prompt =
        CallResult.demo (1000 + rand) (generateDemoResponse ridx prompt modelKey)) ∧
    (env.hasKey config.provider = true →
      ∃ t, callAIModel env net rand ridx modelKey prompt = CallResult.live t) ∧
    (rand < 2000 → 1000 ≤ 1000 + rand ∧ 1000 + rand < 3000) ∧
    (∃ s, generateDemoResponse ridx prompt modelKey = s ++ demoTag) := by
  refine ⟨?_, ?_, fun h => ⟨Nat.le_add_right _ _, by omega⟩, ⟨_, rfl⟩⟩
  · intro hk
    unfold callAIModel
    rw [hcfg]
    simp [hk]
  · intro hk
    refine ⟨liveCall net 0 3, ?_⟩
    unfold callAIModel
    rw [hcfg]
    simp [hk]

/-- Claim C7 witness: a credential-free environment calling `gpt-4o`. -/
theorem claim7_demo_mode_witness :
    lookupModel "gpt-4o" = some ⟨Provider.openai, "gpt-4o"⟩ ∧
    ((Env.hasKey ⟨false, false, false⟩ Provider.openai = false →
      callAIModel ⟨false, false, false⟩
          (fun (_ : Nat) => (Except.error "x" : Except String String)) 500 0
          "gpt-4o" "p" =
        CallResult.demo (1000 + 500) (generateDemoResponse 0 "p" "gpt-4o")) ∧
    (Env.hasKey ⟨false, false, false⟩ Provider.openai = true →
      ∃ t, callAIModel ⟨false, false, false⟩
          (fun (_ : Nat) => (Except.error "x" : Except String String)) 500 0
          "gpt-4o" "p" = CallResult.live t) ∧
    (500 < 2000 → 1000 ≤ 1000 + 500 ∧ 1000 + 500 < 3000) ∧
    (∃ s, generateDemoResponse 0 "p" "gpt-4o" = s ++ demoTag)) :=
  ⟨rfl,
    claim7_demo_mode ⟨false, false, false⟩
      (fun (_ : Nat) => (Except.error "x" : Except String String)) 500 0
      "gpt-4o" "p" ⟨Provider.openai, "gpt-4o"⟩ rfl⟩

/-- Claim C8, counterexample: with only the OpenAI key configured, calls to
`claude-3.7` run in demo mode (its provider flag is false), yet the status
listing does NOT include `claude-3.7` — the "all models available" fallback
applies only when no key at all is configured. -/
theorem claim8_counterexample :
    lookupModel "claude-3.7" =
      some ⟨Provider.anthropic, "claude-3-5-haiku-20241022"⟩ ∧
    Env.hasKey ⟨true, false, false⟩ Provider.anthropic = false ∧
    ¬ ("claude-3.7" ∈ statusAvailableModels ⟨true, false, false⟩) :=
  ⟨rfl, rfl, by decide⟩

/-- Claim C8 (amended): a model key appears in the status listing iff no
provider at all has a credential (global demo mode, all keys listed) or
its own resolved provider's flag is true; hence a demo-mode key is still
listed only in the no-credentials-at-all configuration, and is excluded
when some other provider has a credential. -/
theorem claim8_availability (a b c : Bool) :
    ∀ p ∈ AI_MODELS,
      (p.1 ∈ statusAvailableModels ⟨a, b, c⟩ ↔
        (Env.hasAnyApiKey ⟨a, b, c⟩ = false ∨
          Env.hasKey ⟨a, b, c⟩ p.2.provider = true)) := by
  revert a b c
  decide

/-- Claim C8 witness: the amended statement for `claude-3.7` in the
no-credentials environment, where the key is listed. -/
theorem claim8_availability_witness :
    ("claude-3.7", (⟨Provider.anthropic, "claude-3-5-haiku-20241022"⟩ :
      ModelConfig)) ∈ AI_MODELS ∧
    (("claude-3.7", (⟨Provider.anthropic, "claude-3-5-haiku-20241022"⟩ :
        ModelConfig)).1 ∈ statusAvailableModels ⟨false, false, false⟩ ↔
      (Env.hasAnyApiKey ⟨false, false, false⟩ = false ∨
        Env.hasKey ⟨false, false, false⟩
          ("claude-3.7", (⟨Provider.anthropic, "claude-3-5-haiku-20241022"⟩ :
            ModelConfig)).2.provider = true)) :=
  ⟨by decide,
    claim8_availability false false false
      ("claude-3.7", ⟨Provider.anthropic, "claude-3-5-haiku-20241022"⟩)
      (by decide)⟩

/-- Claim C9: every input-validation failure — missing file, missing
model-selection payload, unparseable payload, non-array payload, or empty
model list — is rejected with a structured 400 error before any work
starts: no progress event is emitted, no result row is created, and no
provider call is made. -/
theorem claim9_input_validation (req : UploadRequest)
    (outcome : Nat → Nat → Nat → Except String String)
    (h : req.file = none ∨ req.selectedModels = ModelsField.missing ∨
      req.selectedModels = ModelsField.parseFailure ∨
      req.selectedModels = ModelsField.parsedNonArray ∨
      req.selectedModels = ModelsField.parsedArray []) :
    ∃ msg, handleUpload req outcome =
      ⟨[], [], 0, HandlerResponse.clientError 400 msg⟩ := by
  obtain ⟨file, sel, iters⟩ := req
  cases file with
  | none => exact ⟨"No file uploaded", rfl⟩
  | some rows =>
    rcases h with h | h | h | h | h
    · simp at h
    all_goals (cases h; exact ⟨_, rfl⟩)

/-- Claim C9 witness: a request with a file but no `selectedModels`. -/
theorem claim9_input_validation_witness :
    ((⟨some [["a"]], ModelsField.missing, none⟩ : UploadRequest).file = none ∨
      (⟨some [["a"]], ModelsField.missing, none⟩ :
        UploadRequest).selectedModels = ModelsField.missing ∨
      (⟨some [["a"]], ModelsField.missing, none⟩ :
        UploadRequest).selectedModels = ModelsField.parseFailure ∨
      (⟨some [["a"]], ModelsField.missing, none⟩ :
        UploadRequest).selectedModels = ModelsField.parsedNonArray ∨
      (⟨some [["a"]], ModelsField.missing, none⟩ :
        UploadRequest).selectedModels = ModelsField.parsedArray []) ∧
    ∃ msg, handleUpload ⟨some [["a"]], ModelsField.missing, none⟩
        (fun (_ _ _ : Nat) => (Except.ok "r" : Except String String)) =
      ⟨[], [], 0, HandlerResponse.clientError 400 msg⟩ :=
  ⟨Or.inr (Or.inl rfl),
    claim9_input_validation ⟨some [["a"]], ModelsField.missing, none⟩
      (fun (_ _ _ : Nat) => (Except.ok "r" : Except String String))
      (Or.inr (Or.inl rfl))⟩

/-- Claim C10: the iteration count used by the batch is
`parseInt(iterations) || 1` — the parsed value when it is a nonzero
number, and 1 when the field is missing/non-numeric (`NaN`) or parses to
0; nothing enforces the `≥ 1` interface precondition, so a negative parsed
value is used as-is: the batch then executes zero work units, produces an
empty result set, and the progress events carry a negative `totalTasks`. -/
theorem claim10_iteration_parse (n : Int) (row : CSVRow) (rows : List CSVRow)
    (m : String) (ms : List String)
    (outcome : Nat → Nat → Nat → Except String String)
    (hn : n < 0) :
    jsParseIntOr1 none = 1 ∧ jsParseIntOr1 (some 0) = 1 ∧
    (∀ k : Int, k ≠ 0 → jsParseIntOr1 (some k) = k) ∧
    ((((row :: rows).length : Int) * (((m :: ms) : List String).length : Int) *
        n < 0) ∧
      handleUpload ⟨some (row :: rows), ModelsField.parsedArray (m :: ms),
          some n⟩ outcome =
        ⟨[initialEvent (((row :: rows).length : Int) *
              (((m :: ms) : List String).length : Int) * n),
          finalEvent (((row :: rows).length : Int) *
              (((m :: ms) : List String).length : Int) * n)],
          [], 0, HandlerResponse.success 0⟩) := by
  have hgen : ∀ k : Int, k ≠ 0 → jsParseIntOr1 (some k) = k := by
    intro k hk
    unfold jsParseIntOr1
    split
    · simp_all
    · simp_all
    · simp_all
  refine ⟨rfl, rfl, hgen, ?_, ?_⟩
  · have h1 : (0 : Int) < ((row :: rows).length : Int) := by simp
    have h2 : (0 : Int) < (((m :: ms) : List String).length : Int) := by simp
    exact mul_neg_of_pos_of_neg (mul_pos h1 h2) hn
  · unfold handleUpload
    dsimp only
    rw [hgen n (by omega),
      runBatch_of_nonpos (row :: rows) (m :: ms) n outcome (le_of_lt hn)]
    simp

/-- Claim C10 witness: `iterations = "-2"` with one row and one model. -/
theorem claim10_iteration_parse_witness :
    (-2 : Int) < 0 ∧
    (jsParseIntOr1 none = 1 ∧ jsParseIntOr1 (some 0) = 1 ∧
    (∀ k : Int, k ≠ 0 → jsParseIntOr1 (some k) = k) ∧
    (((((["a"] : CSVRow) :: ([] : List CSVRow)).length : Int) *
        ((("m" : String) :: ([] : List String) : List String).length : Int) *
        (-2 : Int) < 0) ∧
      handleUpload ⟨some [["a"]], ModelsField.parsedArray ["m"], some (-2)⟩
          (fun (_ _ _ : Nat) => (Except.ok "r" : Except String String)) =
        ⟨[initialEvent (((["a"] : CSVRow) :: ([] : List CSVRow)).length *
              ((("m" : String) :: ([] : List String) : List String).length :
                Int) * (-2 : Int)),
          finalEvent (((["a"] : CSVRow) :: ([] : List CSVRow)).length *
              ((("m" : String) :: ([] : List String) : List String).length :
                Int) * (-2 : Int))],
          [], 0, HandlerResponse.success 0⟩)) :=
  ⟨by norm_num,
    claim10_iteration_parse (-2) ["a"] [] "m" []
      (fun (_ _ _ : Nat) => (Except.ok "r" : Except String String))
      (by norm_num)⟩

end AIRec
